import Mathlib

/-!
Shallow embedding of the Hotel Emojis game core (the session/spawn/timing
engine of the React component in the repository's main source file).

Modelling conventions:
* JS numbers holding timestamps, point values and TTLs become `Int`;
  `Math.floor` division becomes `Int.fdiv` (floor division).
* React `useState` pieces and the relevant `useRef`s are gathered into one
  `GameState` record; each event handler / effect becomes a pure function
  `GameState → ... → GameState` (possibly paired with a `ClickOutcome`).
* Calls to `Math.random` (via `randomInt` / `randomIntRange` in the source)
  are modelled by oracle parameters: a `Nat` argument reduced mod the
  relevant list length for uniform picks, and an `Int` argument `ttl`
  standing for the value of `randomIntRange(TTL_MIN_MS, TTL_MAX_MS)`.
  All properties proved below hold for every value of these oracles.
* `Date.now()` becomes an explicit `now : Int` argument.
-/

namespace HotelEmojis

/-- EmojiKind from the source: `'good' | 'bad' | 'bomb'`. -/
inductive EmojiKind
  | good
  | bad
  | bomb
deriving DecidableEq, Repr

/-- Spawnable from the source: `{ kind, emoji, points }`. -/
structure Spawnable where
  kind : EmojiKind
  emoji : String
  points : Int
deriving DecidableEq, Repr

/-- Theme values, the source's `'day' | 'night'` union. -/
inductive Theme
  | day
  | night
deriving DecidableEq, Repr

/-- themedPoints from the source:
`theme === 'night' ? -points : points`. -/
def themedPoints (points : Int) (theme : Theme) : Int :=
  if theme = Theme.night then -points else points

/-- windowDelta from the source:
`if (item.kind === 'bomb') return 0; return themedPoints(item.points, theme)`. -/
def windowDelta (item : Spawnable) (theme : Theme) : Int :=
  if item.kind = EmojiKind.bomb then 0 else themedPoints item.points theme

/-- WindowCell from the source: `{ id, active, expiresAt }`. -/
structure WindowCell where
  id : Nat
  active : Option Spawnable
  expiresAt : Int
deriving DecidableEq, Repr

/-- DoorDrop from the source: `{ emoji, points, expiresAt }`. -/
structure DoorDrop where
  emoji : String
  points : Int
  expiresAt : Int
deriving DecidableEq, Repr

/-- View from the source: `'welcome' | 'instructions' | 'game'`. -/
inductive View
  | welcome
  | instructions
  | game
deriving DecidableEq, Repr

/-- COLS from the source. -/
def COLS : Nat := 2

/-- ROWS from the source. -/
def ROWS : Nat := 5

/-- CELL_COUNT from the source: `COLS * ROWS`. -/
def CELL_COUNT : Nat := COLS * ROWS

/-- DOOR_ITEMS from the source (emoji, points pairs). -/
def DOOR_ITEMS : List (String × Int) :=
  [("🎁", 10), ("🪙", 15), ("🔑", 8), ("❄️", -12), ("❤️‍🩹", -10)]

/-- SPAWNABLES from the source. -/
def SPAWNABLES : List Spawnable :=
  [⟨EmojiKind.good, "💎", 5⟩,
   ⟨EmojiKind.good, "🍀", 3⟩,
   ⟨EmojiKind.good, "⭐️", 2⟩,
   ⟨EmojiKind.good, "❤️", 1⟩,
   ⟨EmojiKind.bad, "💀", -2⟩,
   ⟨EmojiKind.bad, "😭", -4⟩,
   ⟨EmojiKind.bad, "🔥", -1⟩,
   ⟨EmojiKind.bomb, "💣", 0⟩]

/-- createInitialGrid from the source:
`Array.from({length: CELL_COUNT}, (_, i) => ({id: i, active: null, expiresAt: 0}))`. -/
def createInitialGrid : List WindowCell :=
  (List.range CELL_COUNT).map fun i => ⟨i, none, 0⟩

/-- Fallback cell, never reached: list indexing in the source is always
in bounds, so `getD` defaults below are inert. -/
def dummyCell : WindowCell := ⟨0, none, 0⟩

/-- Fallback spawnable, never reached (see `dummyCell`). -/
def dummySpawnable : Spawnable := ⟨EmojiKind.good, "", 0⟩

/-- GameState gathers the component's `useState` pieces and the refs the
core logic reads: `grid`, `points`, `gameOver`, `doorDrop`,
`doorMilestonesAwarded`, `elapsedSeconds`, `runKey`, `view`, plus
`startedAtRef` and `pausedAtRef`. -/
structure GameState where
  view : View
  grid : List WindowCell
  points : Int
  gameOver : Bool
  doorDrop : Option DoorDrop
  doorMilestonesAwarded : Int
  elapsedSeconds : Int
  runKey : Nat
  startedAt : Int
  pausedAt : Option Int
deriving DecidableEq, Repr

/-- Theme derivation from the source:
`Math.floor((elapsedSeconds + 5) / 60) % 2 === 0 ? 'day' : 'night'`. -/
def theme (elapsedSeconds : Int) : Theme :=
  if (elapsedSeconds + 5).fdiv 60 % 2 = 0 then Theme.day else Theme.night

/-- Elapsed-seconds computation from the source's timer effect:
`Math.floor((Date.now() - startedAtRef.current) / 1000)`. -/
def elapsedFrom (now startedAt : Int) : Int :=
  (now - startedAt).fdiv 1000

/-- Outcome classification of a click, following the spec's ClickOutcome
vocabulary; the branch taken by the source determines the tag (the early
guard returns and the occupant-absent branch are the "empty" no-ops). -/
inductive ClickOutcome
  | empty
  | bomb
  | scored
deriving DecidableEq, Repr

/-- onClickWindow from the source. Guards: `if (gameOver) return;
if (view !== 'game') return;`. Then inside `setGrid`: if the cell has no
`active` occupant, return the grid unchanged; if the occupant is a bomb,
set gameOver and clear every cell whose `id` field equals the clicked id;
otherwise add `windowDelta(picked, theme)` to points and clear the cell at
the clicked index. Note the source performs no expiry check here. -/
def onClickWindow (s : GameState) (id : Nat) : GameState × ClickOutcome :=
  if s.gameOver then (s, ClickOutcome.empty)
  else if s.view ≠ View.game then (s, ClickOutcome.empty)
  else
    match s.grid.get? id with
    | none => (s, ClickOutcome.empty)
    | some cell =>
      match cell.active with
      | none => (s, ClickOutcome.empty)
      | some picked =>
        if picked.kind = EmojiKind.bomb then
          ({ s with gameOver := true,
                    grid := s.grid.map fun c =>
                      if c.id = id then { c with active := none, expiresAt := 0 } else c },
           ClickOutcome.bomb)
        else
          ({ s with points := s.points + windowDelta picked (theme s.elapsedSeconds),
                    grid := s.grid.set id { cell with active := none, expiresAt := 0 } },
           ClickOutcome.scored)

/-- onClickDoor from the source. Guards as in `onClickWindow`; then inside
`setDoorDrop`: absent drop is returned unchanged; a drop with
`expiresAt <= now` is replaced by `null`; a live drop adds
`themedPoints(prev.points, theme)` to points and is replaced by `null`. -/
def onClickDoor (s : GameState) (now : Int) : GameState × ClickOutcome :=
  if s.gameOver then (s, ClickOutcome.empty)
  else if s.view ≠ View.game then (s, ClickOutcome.empty)
  else
    match s.doorDrop with
    | none => (s, ClickOutcome.empty)
    | some prev =>
      if prev.expiresAt ≤ now then
        ({ s with doorDrop := none }, ClickOutcome.empty)
      else
        ({ s with doorDrop := none,
                  points := s.points + themedPoints prev.points (theme s.elapsedSeconds) },
         ClickOutcome.scored)

/-- Availability test used by the spawn interval in the source:
`!cell.active || cell.expiresAt <= now`. -/
def isAvailable (cell : WindowCell) (now : Int) : Bool :=
  cell.active.isNone || decide (cell.expiresAt ≤ now)

/-- The `emptyIndices` list built by the spawn interval: indices `i` of the
grid, in increasing order, with `!cell.active || cell.expiresAt <= now`. -/
def availableIndices (grid : List WindowCell) (now : Int) : List Nat :=
  (List.range grid.length).filter fun i => isAvailable (grid.getD i dummyCell) now

/-- Spawn tick from the source's `setInterval(..., SPAWN_INTERVAL_MS)` body:
collect `emptyIndices`; if none, return the grid unchanged; otherwise pick
`targetIndex = emptyIndices[randomInt(len)]` and a random spawnable, and set
`next[targetIndex] = {...next[targetIndex], active: spawnable,
expiresAt: now + randomIntRange(TTL_MIN_MS, TTL_MAX_MS)}`. The two random
picks are the oracle arguments `rIdx`, `rItem` (reduced mod the list
lengths, as `randomInt` is), and `ttl` stands for the random TTL. -/
def spawnTick (grid : List WindowCell) (now ttl : Int) (rIdx rItem : Nat) :
    List WindowCell :=
  let emptyIndices := availableIndices grid now
  if emptyIndices.isEmpty then grid
  else
    let targetIndex := emptyIndices.getD (rIdx % emptyIndices.length) 0
    let spawnable := SPAWNABLES.getD (rItem % SPAWNABLES.length) dummySpawnable
    grid.set targetIndex
      { grid.getD targetIndex dummyCell with
          active := some spawnable, expiresAt := now + ttl }

/-- Grid part of the cleanup interval from the source: every cell with
`cell.active && cell.expiresAt <= now` becomes
`{...cell, active: null, expiresAt: 0}`. -/
def sweepGrid (grid : List WindowCell) (now : Int) : List WindowCell :=
  grid.map fun cell =>
    if cell.active.isSome && cell.expiresAt ≤ now then
      { cell with active := none, expiresAt := 0 }
    else cell

/-- Door part of the cleanup interval from the source:
`prev.expiresAt <= now ? null : prev`. -/
def sweepDoor (drop : Option DoorDrop) (now : Int) : Option DoorDrop :=
  match drop with
  | none => none
  | some prev => if prev.expiresAt ≤ now then none else some prev

/-- Pause/resume effect from the source (the effect keyed on
`[view, elapsedSeconds]`): leaving the game view records `pausedAt` once;
entering it with no pause mark just re-derives `startedAt`; entering it
with a pause mark computes `delta = now - pausedAt`, clears the mark,
re-derives `startedAt = now - elapsedSeconds * 1000`, and when
`delta > 0` shifts the door drop's and every occupied cell's `expiresAt`
forward by `delta`. -/
def pauseResumeEffect (s : GameState) (now : Int) : GameState :=
  if s.view ≠ View.game then
    match s.pausedAt with
    | none => { s with pausedAt := some now }
    | some _ => s
  else
    match s.pausedAt with
    | none => { s with startedAt := now - s.elapsedSeconds * 1000 }
    | some pausedAt =>
      let delta := now - pausedAt
      let s1 := { s with pausedAt := none,
                         startedAt := now - s.elapsedSeconds * 1000 }
      if 0 < delta then
        { s1 with
            doorDrop := s1.doorDrop.map fun d =>
              { d with expiresAt := d.expiresAt + delta },
            grid := s1.grid.map fun cell =>
              if cell.active.isSome then
                { cell with expiresAt := cell.expiresAt + delta }
              else cell }
      else s1

/-- Milestone effect from the source (the effect keyed on
`[doorMilestones, doorMilestonesAwarded, gameOver, view]`), with
`doorMilestones = Math.floor(points / 50)` computed inline. Returns the
new state together with the number of `setDoorDrop` arm calls performed
(0 or 1). The random door item pick is the oracle `rItem`, the random TTL
is `ttl`. -/
def milestoneEffect (s : GameState) (now ttl : Int) (rItem : Nat) :
    GameState × Nat :=
  let doorMilestones := s.points.fdiv 50
  if s.view ≠ View.game then (s, 0)
  else if s.gameOver then (s, 0)
  else if doorMilestones ≤ 0 then (s, 0)
  else if doorMilestones ≤ s.doorMilestonesAwarded then (s, 0)
  else
    let item := DOOR_ITEMS.getD (rItem % DOOR_ITEMS.length) ("", 0)
    ({ s with doorMilestonesAwarded := doorMilestones,
              doorDrop := some ⟨item.1, item.2, now + ttl⟩ }, 1)

/-- restart from the source (state part; clearing the interval handles is
about the host timers, outside the state record): points to 0, gameOver to
false, doorDrop to null, doorMilestonesAwarded to 0, grid to
`createInitialGrid()`, and the runKey bump. -/
def restart (s : GameState) : GameState :=
  { s with points := 0, gameOver := false, doorDrop := none,
           doorMilestonesAwarded := 0, grid := createInitialGrid,
           runKey := s.runKey + 1 }

/-- The effect keyed on `[runKey]` in the source:
`startedAtRef.current = Date.now(); setElapsedSeconds(0)`. -/
def runKeyEffect (s : GameState) (now : Int) : GameState :=
  { s with startedAt := now, elapsedSeconds := 0 }

/-! Concrete states used by counterexamples and witnesses. -/

/-- The 5-point gem spawnable, first entry of SPAWNABLES. -/
def gem : Spawnable := ⟨EmojiKind.good, "💎", 5⟩

/-- Fresh in-game state: all slots empty, score 0, nothing pending. -/
def baseState : GameState :=
  { view := View.game, grid := createInitialGrid, points := 0, gameOver := false,
    doorDrop := none, doorMilestonesAwarded := 0, elapsedSeconds := 0,
    runKey := 0, startedAt := 0, pausedAt := none }

/-- The bomb spawnable, last entry of SPAWNABLES. -/
def bombItem : Spawnable := ⟨EmojiKind.bomb, "💣", 0⟩

/-- Fresh game state with the bomb sitting in slot 2. -/
def sBomb : GameState :=
  { baseState with grid := createInitialGrid.set 2 ⟨2, some bombItem, 4000⟩ }

/-- Fresh game state with the gem in slot 1, elapsed 0s (day theme). -/
def sGem : GameState :=
  { baseState with grid := createInitialGrid.set 1 ⟨1, some gem, 4000⟩ }

/-- Same as `sGem` but at elapsed 60s, where the theme is night. -/
def sGemNight : GameState := { sGem with elapsedSeconds := 60 }

/-- Game state whose slot 0 holds the gem with `expiresAt = 1000`, used
against a click happening at time 2000 (so the occupant has expired but
has not been swept yet). -/
def sC1 : GameState :=
  { baseState with grid := createInitialGrid.set 0 ⟨0, some gem, 1000⟩ }

/-- Game state whose door drop has `expiresAt = 5`, used against a door
click happening at time 10 (expired but unswept). -/
def sC7 : GameState := { baseState with doorDrop := some ⟨"🎁", 10, 5⟩ }

/-- Game state with score 105 and no milestone awarded yet. -/
def sC2 : GameState := { baseState with points := 105 }

/-- Paused game state: pause began at time 1000, elapsed 7s, slot 2
occupied by the gem expiring at 2000, door drop expiring at 3000. -/
def sC4 : GameState :=
  { baseState with
      grid := createInitialGrid.set 2 ⟨2, some gem, 2000⟩,
      doorDrop := some ⟨"🪙", 15, 3000⟩,
      elapsedSeconds := 7, startedAt := 42, pausedAt := some 1000 }

/-- Grid with one live occupant in slot 0 (expires at 100). -/
def gW : List WindowCell := createInitialGrid.set 0 ⟨0, some gem, 100⟩

/-- Grid in which every slot holds a live occupant (expires at 100). -/
def gFull : List WindowCell :=
  createInitialGrid.map fun c => { c with active := some gem, expiresAt := 100 }

/-- Occupancy count of a grid: number of cells with an occupant. -/
def occupancy (grid : List WindowCell) : Nat :=
  grid.countP fun c => c.active.isSome

/-- Invariant relating empty slots and their stored expiry: a cell with no
occupant carries `expiresAt = 0`. -/
def EmptyZero (grid : List WindowCell) : Prop :=
  ∀ cell ∈ grid, cell.active = none → cell.expiresAt = 0

/-! Theorems, one per claim. -/

/-- C8: the theme derived from elapsed seconds `t` is day iff
`floor((t + 5) / 60) mod 2 == 0`, and for every natural number `t`,
`theme t = theme (t + 120)`. -/
theorem c8_theme_formula_period :
    (∀ t : Int, theme t = Theme.day ↔ (t + 5).fdiv 60 % 2 = 0) ∧
    (∀ t : Nat, theme (t : Int) = theme ((t : Int) + 120)) := by
  constructor
  · intro t
    unfold theme
    split_ifs with h
    · simp [h]
    · simp [h]
  · intro t
    unfold theme
    rw [Int.fdiv_eq_ediv _ (by norm_num), Int.fdiv_eq_ediv _ (by norm_num)]
    have key : ((t : Int) + 5) / 60 % 2 = 0 ↔ ((t : Int) + 120 + 5) / 60 % 2 = 0 := by
      omega
    by_cases h : ((t : Int) + 5) / 60 % 2 = 0
    · rw [if_pos h, if_pos (key.mp h)]
    · rw [if_neg h, if_neg (fun hc => h (key.mpr hc))]

/-- C9: `restart` followed by the runKey effect resets score to 0, gameOver
to false, the door drop to none, milestonesAwarded to 0, the grid to the
all-empty initial grid, elapsed seconds to 0, and the start reference to
the current time. -/
theorem c9_restart_resets (s : GameState) (now : Int) :
    (runKeyEffect (restart s) now).points = 0 ∧
    (runKeyEffect (restart s) now).gameOver = false ∧
    (runKeyEffect (restart s) now).doorDrop = none ∧
    (runKeyEffect (restart s) now).doorMilestonesAwarded = 0 ∧
    (runKeyEffect (restart s) now).grid = createInitialGrid ∧
    ((runKeyEffect (restart s) now).grid.all fun c => c.active.isNone) = true ∧
    (runKeyEffect (restart s) now).elapsedSeconds = 0 ∧
    (runKeyEffect (restart s) now).startedAt = now := by
  refine ⟨rfl, rfl, rfl, rfl, rfl, ?_, rfl, rfl⟩
  show (createInitialGrid.all fun c => c.active.isNone) = true
  decide

/-- C3: clicking a slot whose occupant is a bomb while the game is active
sets gameOver, leaves the score unchanged, clears the slot, and yields the
bomb outcome. -/
theorem c3_bomb_click (s : GameState) (id : Nat) (cell : WindowCell)
    (picked : Spawnable)
    (hview : s.view = View.game) (hgo : s.gameOver = false)
    (hcell : s.grid.get? id = some cell) (hact : cell.active = some picked)
    (hkind : picked.kind = EmojiKind.bomb) (hid : cell.id = id) :
    (onClickWindow s id).1.gameOver = true ∧
    (onClickWindow s id).1.points = s.points ∧
    (onClickWindow s id).1.grid.get? id =
      some { cell with active := none, expiresAt := 0 } ∧
    (onClickWindow s id).2 = ClickOutcome.bomb := by
  have hc : s.grid[id]? = some cell := by
    rw [← List.get?_eq_getElem?]; exact hcell
  unfold onClickWindow
  simp [hgo, hview, hc, hact, hkind, hid, List.getElem?_map]

/-- Witness for C3: in a fresh game with the bomb in slot 2, clicking
slot 2 ends the game, keeps the score at 0, and clears slot 2. -/
theorem c3_bomb_click_witness :
    ((sBomb.view = View.game) ∧ (sBomb.gameOver = false) ∧
     sBomb.grid.get? 2 = some ⟨2, some bombItem, 4000⟩ ∧
     (⟨2, some bombItem, 4000⟩ : WindowCell).active = some bombItem ∧
     bombItem.kind = EmojiKind.bomb) ∧
    (onClickWindow sBomb 2).1.gameOver = true ∧
    (onClickWindow sBomb 2).1.points = sBomb.points ∧
    (onClickWindow sBomb 2).1.grid.get? 2 =
      some { (⟨2, some bombItem, 4000⟩ : WindowCell) with
               active := none, expiresAt := 0 } ∧
    (onClickWindow sBomb 2).2 = ClickOutcome.bomb :=
  ⟨⟨by decide, by decide, by decide, by decide, by decide⟩,
   c3_bomb_click sBomb 2 ⟨2, some bombItem, 4000⟩ bombItem
     (by decide) (by decide) (by decide) (by decide) (by decide) (by decide)⟩

/-- C6: clicking a slot holding a non-bomb occupant with base points `p`
adds `+p` to the score in day theme and `-p` in night theme, clears the
slot, and yields the scored outcome. -/
theorem c6_scored_click_theme (s : GameState) (id : Nat) (cell : WindowCell)
    (picked : Spawnable)
    (hview : s.view = View.game) (hgo : s.gameOver = false)
    (hcell : s.grid.get? id = some cell) (hact : cell.active = some picked)
    (hkind : picked.kind ≠ EmojiKind.bomb) :
    (theme s.elapsedSeconds = Theme.day →
      (onClickWindow s id).1.points = s.points + picked.points) ∧
    (theme s.elapsedSeconds = Theme.night →
      (onClickWindow s id).1.points = s.points - picked.points) ∧
    (onClickWindow s id).1.grid.get? id =
      some { cell with active := none, expiresAt := 0 } ∧
    (onClickWindow s id).1.gameOver = s.gameOver ∧
    (onClickWindow s id).2 = ClickOutcome.scored := by
  have hlt : id < s.grid.length := by
    rcases List.get?_eq_some.mp hcell with ⟨h, _⟩
    exact h
  have hc : s.grid[id]? = some cell := by
    rw [← List.get?_eq_getElem?]; exact hcell
  refine ⟨?_, ?_, ?_, ?_, ?_⟩
  · intro hday
    unfold onClickWindow
    simp [hgo, hview, hc, hact, hkind, windowDelta, themedPoints, hday]
  · intro hnight
    unfold onClickWindow
    simp [hgo, hview, hc, hact, hkind, windowDelta, themedPoints, hnight,
      sub_eq_add_neg]
  · unfold onClickWindow
    simp [hgo, hview, hc, hact, hkind, List.get?_eq_getElem?,
      List.getElem?_set_self hlt]
  · unfold onClickWindow
    simp [hgo, hview, hc, hact, hkind]
  · unfold onClickWindow
    simp [hgo, hview, hc, hact, hkind]

/-- Witness for C6: with the 5-point gem in slot 1, clicking it at elapsed
0s (day) yields score 5, and at elapsed 60s (night) yields score -5; the
slot is cleared. -/
theorem c6_scored_click_theme_witness :
    (sGem.view = View.game ∧ sGem.gameOver = false ∧
     sGem.grid.get? 1 = some ⟨1, some gem, 4000⟩ ∧
     gem.kind ≠ EmojiKind.bomb ∧
     theme sGem.elapsedSeconds = Theme.day ∧
     (onClickWindow sGem 1).1.points = sGem.points + gem.points ∧
     (onClickWindow sGem 1).1.points = 5) ∧
    (theme sGemNight.elapsedSeconds = Theme.night ∧
     (onClickWindow sGemNight 1).1.points = sGemNight.points - gem.points ∧
     (onClickWindow sGemNight 1).1.points = -5) ∧
    (onClickWindow sGem 1).1.grid.get? 1 = some ⟨1, none, 0⟩ := by
  have hday := c6_scored_click_theme sGem 1 ⟨1, some gem, 4000⟩ gem
    (by decide) (by decide) (by decide) (by decide) (by decide)
  have hnight := c6_scored_click_theme sGemNight 1 ⟨1, some gem, 4000⟩ gem
    (by decide) (by decide) (by decide) (by decide) (by decide)
  refine ⟨⟨by decide, by decide, by decide, by decide, by decide,
           hday.1 (by decide), ?_⟩,
          ⟨by decide, hnight.2.1 (by decide), ?_⟩, ?_⟩
  · rw [hday.1 (by decide)]; decide
  · rw [hnight.2.1 (by decide)]; decide
  · simpa using hday.2.2.1

/-- C1 counterexample: in state `sC1` the slot 0 occupant (the 5-point gem)
has `expiresAt = 1000`, already passed at a click happening at time 2000;
the claim says such a click is a no-op returning "empty", but the source's
onClickWindow never consults `expiresAt`, so the click scores 5 points,
clears the slot, and returns the scored outcome. -/
theorem c1_click_expired_slot_scores :
    sC1.grid.get? 0 = some ⟨0, some gem, 1000⟩ ∧
    ((1000 : Int) ≤ 2000) ∧
    sC1.points = 0 ∧
    (onClickWindow sC1 0).1.points = 5 ∧
    (onClickWindow sC1 0).2 = ClickOutcome.scored ∧
    (onClickWindow sC1 0).1.grid ≠ sC1.grid := by decide

/-- C1 amended: a window click is a no-op returning "empty" exactly when
the slot has no occupant at all (out-of-range id, or `active = none`); an
occupant whose `expiresAt` has passed but is not yet swept is still
processed as a normal click. -/
theorem c1_window_click_empty_only_noop :
    (∀ (s : GameState) (id : Nat), s.grid.get? id = none →
      onClickWindow s id = (s, ClickOutcome.empty)) ∧
    (∀ (s : GameState) (id : Nat) (cell : WindowCell),
      s.grid.get? id = some cell → cell.active = none →
      onClickWindow s id = (s, ClickOutcome.empty)) := by
  constructor
  · intro s id h
    have hc : s.grid[id]? = none := by
      rw [← List.get?_eq_getElem?]; exact h
    unfold onClickWindow
    split_ifs <;> simp [hc]
  · intro s id cell h hact
    have hc : s.grid[id]? = some cell := by
      rw [← List.get?_eq_getElem?]; exact h
    unfold onClickWindow
    split_ifs <;> simp [hc, hact]

/-- Witness for the amended C1: in a fresh game, clicking the out-of-range
slot 11 and the empty slot 3 both leave the state unchanged with the
"empty" outcome. -/
theorem c1_window_click_empty_only_noop_witness :
    baseState.grid.get? 11 = none ∧
    onClickWindow baseState 11 = (baseState, ClickOutcome.empty) ∧
    baseState.grid.get? 3 = some ⟨3, none, 0⟩ ∧
    onClickWindow baseState 3 = (baseState, ClickOutcome.empty) :=
  ⟨by decide,
   c1_window_click_empty_only_noop.1 baseState 11 (by decide),
   by decide,
   c1_window_click_empty_only_noop.2 baseState 3 ⟨3, none, 0⟩
     (by decide) (by decide)⟩

/-- C7 counterexample: in state `sC7` the door drop has `expiresAt = 5`,
already passed at a click at time 10; the claim says the door slot is left
unchanged, but the source's onClickDoor replaces an expired drop by null,
so the slot changes from present to absent. -/
theorem c7_door_click_expired_clears_slot :
    sC7.doorDrop = some ⟨"🎁", 10, 5⟩ ∧
    ((5 : Int) ≤ 10) ∧
    (onClickDoor sC7 10).1.doorDrop = none ∧
    (onClickDoor sC7 10).1.doorDrop ≠ sC7.doorDrop ∧
    (onClickDoor sC7 10).2 = ClickOutcome.empty := by decide

/-- C7 amended: a door click with no drop present is a complete no-op
returning "empty"; a click on a present-but-expired drop adds no points,
leaves score and gameOver unchanged and returns "empty", but clears the
drop (as the sweep would) rather than leaving the slot untouched; and a
door click never changes the gameOver flag. -/
theorem c7_door_click_amended :
    (∀ (s : GameState) (now : Int), s.doorDrop = none →
      onClickDoor s now = (s, ClickOutcome.empty)) ∧
    (∀ (s : GameState) (now : Int) (prev : DoorDrop),
      s.doorDrop = some prev → prev.expiresAt ≤ now →
      (onClickDoor s now).1.points = s.points ∧
      (onClickDoor s now).1.gameOver = s.gameOver ∧
      (onClickDoor s now).2 = ClickOutcome.empty) ∧
    (∀ (s : GameState) (now : Int) (prev : DoorDrop),
      s.view = View.game → s.gameOver = false →
      s.doorDrop = some prev → prev.expiresAt ≤ now →
      (onClickDoor s now).1.doorDrop = none) ∧
    (∀ (s : GameState) (now : Int),
      (onClickDoor s now).1.gameOver = s.gameOver) := by
  refine ⟨?_, ?_, ?_, ?_⟩
  · intro s now h
    unfold onClickDoor
    split_ifs <;> simp [h]
  · intro s now prev h hexp
    unfold onClickDoor
    split_ifs <;> simp [h, hexp]
  · intro s now prev hview hgo h hexp
    unfold onClickDoor
    simp [h, hview, hgo, hexp]
  · intro s now
    unfold onClickDoor
    split_ifs with h1 h2
    · rfl
    · rfl
    · cases h : s.doorDrop with
      | none => rfl
      | some prev =>
        by_cases hexp : prev.expiresAt ≤ now
        · simp [hexp]
        · simp [hexp]

/-- Witness for the amended C7: a fresh game with no drop is untouched by
a door click; the expired drop of `sC7` clicked at time 10 keeps score 0
and gameOver false while the drop is cleared. -/
theorem c7_door_click_amended_witness :
    (baseState.doorDrop = none ∧
     onClickDoor baseState 10 = (baseState, ClickOutcome.empty)) ∧
    (sC7.doorDrop = some ⟨"🎁", 10, 5⟩ ∧
     ((⟨"🎁", 10, 5⟩ : DoorDrop).expiresAt ≤ (10 : Int)) ∧
     (onClickDoor sC7 10).1.points = sC7.points ∧
     (onClickDoor sC7 10).1.gameOver = sC7.gameOver ∧
     (onClickDoor sC7 10).1.doorDrop = none) :=
  ⟨⟨by decide, c7_door_click_amended.1 baseState 10 (by decide)⟩,
   by decide, by decide,
   (c7_door_click_amended.2.1 sC7 10 ⟨"🎁", 10, 5⟩ (by decide) (by decide)).1,
   (c7_door_click_amended.2.1 sC7 10 ⟨"🎁", 10, 5⟩ (by decide) (by decide)).2.1,
   c7_door_click_amended.2.2.1 sC7 10 ⟨"🎁", 10, 5⟩
     (by decide) (by decide) (by decide) (by decide)⟩

/-- C2: whenever `floor(points / 50)` exceeds `doorMilestonesAwarded` (and
the game is active), the milestone effect performs exactly one arm call,
advances `doorMilestonesAwarded` to the computed count in one step (not by
1), and installs the armed drop. -/
theorem c2_milestone_single_arm (s : GameState) (now ttl : Int) (rItem : Nat)
    (hview : s.view = View.game) (hgo : s.gameOver = false)
    (hpos : 0 < s.points.fdiv 50)
    (hlt : s.doorMilestonesAwarded < s.points.fdiv 50) :
    (milestoneEffect s now ttl rItem).2 = 1 ∧
    (milestoneEffect s now ttl rItem).1.doorMilestonesAwarded =
      s.points.fdiv 50 ∧
    (milestoneEffect s now ttl rItem).1.doorDrop =
      some ⟨(DOOR_ITEMS.getD (rItem % DOOR_ITEMS.length) ("", 0)).1,
            (DOOR_ITEMS.getD (rItem % DOOR_ITEMS.length) ("", 0)).2,
            now + ttl⟩ ∧
    (milestoneEffect s now ttl rItem).1.points = s.points ∧
    (milestoneEffect s now ttl rItem).1.gameOver = s.gameOver := by
  unfold milestoneEffect
  simp [hview, hgo, not_le.mpr hpos, not_le.mpr hlt]

/-- Witness for C2: with the score jumped to 105 and no milestone awarded
yet, one milestone pass performs a single arm call and advances
`doorMilestonesAwarded` from 0 to 2 in one step. -/
theorem c2_milestone_single_arm_witness :
    (sC2.view = View.game ∧ sC2.gameOver = false ∧
     0 < sC2.points.fdiv 50 ∧
     sC2.doorMilestonesAwarded < sC2.points.fdiv 50) ∧
    sC2.doorMilestonesAwarded = 0 ∧ sC2.points = 105 ∧
    sC2.points.fdiv 50 = 2 ∧
    (milestoneEffect sC2 1000 3000 0).2 = 1 ∧
    (milestoneEffect sC2 1000 3000 0).1.doorMilestonesAwarded = 2 := by
  have h := c2_milestone_single_arm sC2 1000 3000 0
    (by decide) (by decide) (by decide) (by decide)
  exact ⟨⟨by decide, by decide, by decide, by decide⟩,
         by decide, by decide, by decide, h.1, h.2.1.trans (by decide)⟩

/-- C4: entering the game view with a pause mark `p ≤ now` shifts the
expiry of every occupied grid slot and of the door drop (if present)
forward by exactly `Δ = now - p`, leaves empty slots, occupants, score,
gameOver and milestonesAwarded unchanged, and re-derives the start
reference so that the elapsed-seconds computation at `now` returns the
elapsed seconds held at pause time (no jump). -/
theorem c4_resume_shifts (s : GameState) (now p : Int)
    (hview : s.view = View.game) (hp : s.pausedAt = some p) (hle : p ≤ now) :
    ((pauseResumeEffect s now).grid = s.grid.map fun cell =>
        if cell.active.isSome then
          { cell with expiresAt := cell.expiresAt + (now - p) }
        else cell) ∧
    ((pauseResumeEffect s now).doorDrop = s.doorDrop.map fun d =>
        { d with expiresAt := d.expiresAt + (now - p) }) ∧
    (pauseResumeEffect s now).points = s.points ∧
    (pauseResumeEffect s now).gameOver = s.gameOver ∧
    (pauseResumeEffect s now).doorMilestonesAwarded =
      s.doorMilestonesAwarded ∧
    elapsedFrom now (pauseResumeEffect s now).startedAt =
      s.elapsedSeconds := by
  have helapsed : ∀ e : Int, elapsedFrom now (now - e * 1000) = e := by
    intro e
    unfold elapsedFrom
    rw [show now - (now - e * 1000) = e * 1000 by ring]
    exact Int.mul_fdiv_cancel _ (by norm_num)
  unfold pauseResumeEffect
  rw [hview, hp]
  by_cases hpos : 0 < now - p
  · simp only [ne_eq, not_true_eq_false, if_false, if_pos hpos]
    exact ⟨trivial, trivial, trivial, trivial, trivial, helapsed _⟩
  · have hz : now - p = 0 := by omega
    have hcell : ∀ cell : WindowCell,
        (if cell.active.isSome then
          { cell with expiresAt := cell.expiresAt + (now - p) }
         else cell) = cell := by
      intro cell
      cases cell
      rw [hz]
      split <;> simp
    have hdoor : ∀ d : DoorDrop,
        ({ d with expiresAt := d.expiresAt + (now - p) } : DoorDrop) = d := by
      intro d
      cases d
      rw [hz]
      simp
    simp only [ne_eq, not_true_eq_false, if_false, if_neg hpos]
    refine ⟨?_, ?_, trivial, trivial, trivial, helapsed _⟩
    · simp [hcell]
    · simp [hdoor]

/-- Witness for C4: state `sC4` paused at time 1000 with slot 2 occupied
(expiry 2000) and a door drop (expiry 3000) resumes at time 1500: both
expiries move forward by 500 and the elapsed computation returns the
stored 7 seconds. -/
theorem c4_resume_shifts_witness :
    (sC4.view = View.game ∧ sC4.pausedAt = some 1000 ∧
     ((1000 : Int) ≤ 1500)) ∧
    (pauseResumeEffect sC4 1500).grid.get? 2 = some ⟨2, some gem, 2500⟩ ∧
    (pauseResumeEffect sC4 1500).grid.get? 3 = some ⟨3, none, 0⟩ ∧
    (pauseResumeEffect sC4 1500).doorDrop = some ⟨"🪙", 15, 3500⟩ ∧
    (pauseResumeEffect sC4 1500).points = sC4.points ∧
    (pauseResumeEffect sC4 1500).gameOver = sC4.gameOver ∧
    (pauseResumeEffect sC4 1500).doorMilestonesAwarded =
      sC4.doorMilestonesAwarded ∧
    elapsedFrom 1500 (pauseResumeEffect sC4 1500).startedAt = 7 := by
  have h := c4_resume_shifts sC4 1500 1000 (by decide) (by decide) (by decide)
  refine ⟨⟨by decide, by decide, by decide⟩, ?_, ?_, ?_, h.2.2.1, h.2.2.2.1,
          h.2.2.2.2.1, h.2.2.2.2.2.trans (by decide)⟩
  · rw [h.1]; decide
  · rw [h.1]; decide
  · rw [h.2.1]; decide

/-- Indexing a nonempty list at a position reduced mod its length yields a
member of the list (how the spawn tick picks its target index). -/
lemma getD_mod_mem (l : List Nat) (r : Nat) (h : l ≠ []) :
    l.getD (r % l.length) 0 ∈ l := by
  have hlen : 0 < l.length := List.length_pos.mpr h
  have hlt : r % l.length < l.length := Nat.mod_lt _ hlen
  rw [List.getD_eq_getElem _ _ hlt]
  exact List.getElem_mem hlt

/-- Membership in `availableIndices` unpacks to an in-range index whose
cell passes the availability test. -/
lemma mem_availableIndices {grid : List WindowCell} {now : Int} {i : Nat}
    (h : i ∈ availableIndices grid now) :
    i < grid.length ∧ isAvailable (grid.getD i dummyCell) now = true := by
  unfold availableIndices at h
  rcases List.mem_filter.mp h with ⟨hr, hc⟩
  exact ⟨List.mem_range.mp hr, hc⟩

/-- Setting one list position raises any predicate count by at most 1. -/
lemma countP_set_le {α : Type} (l : List α) (n : Nat) (v : α)
    (p : α → Bool) : (l.set n v).countP p ≤ l.countP p + 1 := by
  by_cases h : n < l.length
  · rw [List.countP_set p l n v h]
    split_ifs <;> omega
  · rw [List.set_eq_of_length_le (by omega)]
    omega

/-- C5: one spawn tick raises the occupancy count by at most 1, leaves
every live slot (occupant present, expiry in the future) untouched, and
returns the grid unchanged when no slot is available. -/
theorem c5_spawn_tick_props (grid : List WindowCell) (now ttl : Int)
    (rIdx rItem : Nat) :
    occupancy (spawnTick grid now ttl rIdx rItem) ≤ occupancy grid + 1 ∧
    (∀ (i : Nat) (cell : WindowCell), grid.get? i = some cell →
      cell.active.isSome = true → now < cell.expiresAt →
      (spawnTick grid now ttl rIdx rItem).get? i = grid.get? i) ∧
    (availableIndices grid now = [] →
      spawnTick grid now ttl rIdx rItem = grid) := by
  by_cases hemp : (availableIndices grid now).isEmpty
  · have heq : spawnTick grid now ttl rIdx rItem = grid := by
      unfold spawnTick
      rw [if_pos hemp]
    rw [heq]
    exact ⟨by omega, fun i cell _ _ _ => rfl, fun _ => rfl⟩
  · have hne : availableIndices grid now ≠ [] := by
      simpa [List.isEmpty_iff] using hemp
    have hmem := getD_mod_mem (availableIndices grid now) rIdx hne
    have hspawn : spawnTick grid now ttl rIdx rItem =
        grid.set
          ((availableIndices grid now).getD
            (rIdx % (availableIndices grid now).length) 0)
          { grid.getD
              ((availableIndices grid now).getD
                (rIdx % (availableIndices grid now).length) 0) dummyCell with
              active := some (SPAWNABLES.getD
                (rItem % SPAWNABLES.length) dummySpawnable),
              expiresAt := now + ttl } := by
      unfold spawnTick
      rw [if_neg hemp]
    rw [hspawn]
    refine ⟨countP_set_le _ _ _ _, ?_, fun h0 => absurd h0 hne⟩
    intro i cell hget hsome hexp
    have hneq :
        (availableIndices grid now).getD
          (rIdx % (availableIndices grid now).length) 0 ≠ i := by
      intro he
      have hcellD : grid.getD i dummyCell = cell := by
        rw [List.getD_eq_getElem?_getD, ← List.get?_eq_getElem?, hget]
        rfl
      have htav := (mem_availableIndices hmem).2
      rw [he, hcellD] at htav
      unfold isAvailable at htav
      rcases Option.isSome_iff_exists.mp hsome with ⟨a, ha⟩
      rw [ha] at htav
      simp at htav
      omega
    rw [List.get?_eq_getElem?, List.get?_eq_getElem?,
      List.getElem?_set_ne hneq]

/-- Witness for C5: spawning into `gW` (slot 0 live until time 100, tick
at time 50) leaves slot 0 untouched and raises occupancy by at most 1;
spawning into the fully-live grid `gFull` is a no-op. -/
theorem c5_spawn_tick_props_witness :
    (gW.get? 0 = some ⟨0, some gem, 100⟩ ∧
     ((⟨0, some gem, 100⟩ : WindowCell).active.isSome = true) ∧
     ((50 : Int) < 100) ∧
     (spawnTick gW 50 3000 1 2).get? 0 = gW.get? 0) ∧
    (availableIndices gFull 50 = [] ∧ spawnTick gFull 50 3000 1 2 = gFull) ∧
    occupancy (spawnTick gW 50 3000 1 2) ≤ occupancy gW + 1 := by
  have h := c5_spawn_tick_props gW 50 3000 1 2
  have hf := c5_spawn_tick_props gFull 50 3000 1 2
  exact ⟨⟨by decide, by decide, by decide,
          h.2.1 0 ⟨0, some gem, 100⟩ (by decide) (by decide) (by decide)⟩,
         ⟨by decide, hf.2.2 (by decide)⟩,
         h.1⟩

/-- C10: every grid operation (initial creation, spawn tick, expiry sweep,
window click, pause/resume) keeps the invariant that a slot with no
occupant stores `expiresAt = 0`; consequently any empty slot passes the
spawn availability test. -/
theorem c10_empty_slot_expiry_invariant :
    EmptyZero createInitialGrid ∧
    (∀ (grid : List WindowCell) (now ttl : Int) (rIdx rItem : Nat),
      EmptyZero grid → EmptyZero (spawnTick grid now ttl rIdx rItem)) ∧
    (∀ (grid : List WindowCell) (now : Int),
      EmptyZero grid → EmptyZero (sweepGrid grid now)) ∧
    (∀ (s : GameState) (id : Nat),
      EmptyZero s.grid → EmptyZero (onClickWindow s id).1.grid) ∧
    (∀ (s : GameState) (now : Int),
      EmptyZero s.grid → EmptyZero (pauseResumeEffect s now).grid) ∧
    (∀ (cell : WindowCell) (now : Int),
      cell.active = none → isAvailable cell now = true) := by
  refine ⟨by unfold EmptyZero; decide, ?_, ?_, ?_, ?_, ?_⟩
  · intro grid now ttl rIdx rItem h cell hmem hnone
    unfold spawnTick at hmem
    by_cases hemp : (availableIndices grid now).isEmpty
    · rw [if_pos hemp] at hmem
      exact h cell hmem hnone
    · rw [if_neg hemp] at hmem
      rcases List.mem_or_eq_of_mem_set hmem with hmem2 | heq
      · exact h cell hmem2 hnone
      · rw [heq] at hnone
        simp at hnone
  · intro grid now h cell hmem hnone
    unfold sweepGrid at hmem
    rcases List.mem_map.mp hmem with ⟨c, hc, heq⟩
    split at heq
    · rw [← heq]
    · rw [← heq] at hnone ⊢
      exact h c hc hnone
  · intro s id h
    unfold onClickWindow
    split_ifs with h1 h2
    · exact h
    · exact h
    · split
      · exact h
      · split
        · exact h
        · split_ifs with hkind
          · intro cell2 hmem hnone
            rcases List.mem_map.mp hmem with ⟨c, hc, heq⟩
            split at heq
            · rw [← heq]
            · rw [← heq] at hnone ⊢
              exact h c hc hnone
          · intro cell2 hmem hnone
            rcases List.mem_or_eq_of_mem_set hmem with hmem2 | heq
            · exact h cell2 hmem2 hnone
            · rw [heq]
  · intro s now h
    unfold pauseResumeEffect
    split_ifs with h1
    · split
      · exact h
      · exact h
    · split
      · exact h
      · simp only []
        split_ifs with hd
        · intro cell2 hmem hnone
          rcases List.mem_map.mp hmem with ⟨c, hc, heq⟩
          by_cases hs : c.active.isSome
          · rw [if_pos hs] at heq
            rw [← heq] at hnone
            simp at hnone
            simp [hnone] at hs
          · rw [if_neg hs] at heq
            rw [← heq] at hnone ⊢
            exact h c hc hnone
        · exact h
  · intro cell now hnone
    unfold isAvailable
    rw [hnone]
    rfl

/-- Witness for C10: the invariant holds on the concrete grids `gW` and
the results of a spawn tick, a sweep, a window click and a resume on
concrete states, and the empty `dummyCell` passes the availability test. -/
theorem c10_empty_slot_expiry_invariant_witness :
    EmptyZero gW ∧
    EmptyZero (spawnTick gW 50 3000 1 2) ∧
    EmptyZero (sweepGrid gW 200) ∧
    EmptyZero (onClickWindow sGem 1).1.grid ∧
    EmptyZero (pauseResumeEffect sC4 1500).grid ∧
    (dummyCell.active = none ∧ isAvailable dummyCell 0 = true) := by
  have h := c10_empty_slot_expiry_invariant
  have hgw : EmptyZero gW := by unfold EmptyZero; decide
  have hgem : EmptyZero sGem.grid := by unfold EmptyZero; decide
  have hc4 : EmptyZero sC4.grid := by unfold EmptyZero; decide
  exact ⟨hgw, h.2.1 gW 50 3000 1 2 hgw, h.2.2.1 gW 200 hgw,
         h.2.2.2.1 sGem 1 hgem, h.2.2.2.2.1 sC4 1500 hc4,
         by decide, h.2.2.2.2.2 dummyCell 0 (by decide)⟩

end HotelEmojis
